import Mathlib

/-!
Verification development for the chaas repository (Firebase cloud functions of
a bar-tab management application). The definitions below are a shallow
embedding of the TypeScript sources:

- functions/src/shared/transactionService.ts  (addPayment, the payment ledger)
- functions/src/validatePayment.ts            (the SumUp webhook handler)
- functions/src/getPaymentLinkForSlackUser.ts (the balance lookup endpoint)
- functions/src/shared/updateUsersLogic.ts    (the roster reconciler; its
  implementation file is absent from the sources, only its unit test is, so
  the action computation is modelled from the spec and that test)

Firestore is modelled as an explicit store value: association lists for the
transactions and accounts collections. A Firestore transaction that throws
commits nothing, so fallible atomic operations return Except: an error value
means no write was applied. Monetary amounts and timestamps are Int.
-/

/-- Activity block of an account document (accounts collection). -/
structure Activity where
  totalPurchased : Int
  totalPaid : Int
  lastPurchaseTimestamp : Int
  lastPaymentTimestamp : Int
deriving Repr, DecidableEq

/-- Slack profile block of an account document. -/
structure SlackInfo where
  id : String
  name : String
  username : String
  pictureUrl : String
deriving Repr, DecidableEq

/-- Account document, per the database schema in the repository README. -/
structure Account where
  slack : SlackInfo
  activity : Activity
  isEmployee : Bool
deriving Repr, DecidableEq

/-- Payment transaction document (transactions collection), as written by
addPayment in transactionService.ts. -/
structure Tx where
  id : String
  type : String
  account : String
  amount : Int
  timestamp : Int
deriving Repr, DecidableEq

/-- The Firestore state visible to the functions: the transactions collection
keyed by document id and the accounts collection keyed by document id. -/
structure Store where
  transactions : List (String × Tx)
  accounts : List (String × Account)
deriving Repr, DecidableEq

/-- Document lookup in a collection, by document id (first match). -/
def lookupA {β : Type} : List (String × β) → String → Option β
  | [], _ => none
  | (k, v) :: rest, key => if key = k then some v else lookupA rest key

/-- Document replacement in a collection: overwrite the value stored at a key,
leaving the collection unchanged when the key is absent (Firestore update
touches only an existing document). -/
def setA {β : Type} : List (String × β) → String → β → List (String × β)
  | [], _, _ => []
  | (k, v0) :: rest, key, v =>
    if k = key then (k, v) :: setA rest key v else (k, v0) :: setA rest key v

/-- addPayment from functions/src/shared/transactionService.ts. Inside one
Firestore transaction it reads the transaction document keyed by the given
transactionId (or a freshly generated id genId when none is supplied), throws
the duplicate error when it exists, and otherwise creates the payment record
and increments activity.totalPaid of the account, setting
activity.lastPaymentTimestamp. A Firestore update on a missing account
document fails the whole transaction (modelled as the NOT_FOUND error), and a
thrown error commits nothing, so the error case returns no store. -/
def addPayment (fs : Store) (accountId : String) (amount : Int)
    (transactionId : Option String) (genId : String) (timestamp : Int) :
    Except String Store :=
  let txDocId := transactionId.getD genId
  match lookupA fs.transactions txDocId with
  | some _ => .error "Transaction already exists"
  | none =>
    match lookupA fs.accounts accountId with
    | none => .error "NOT_FOUND"
    | some acct =>
      let tx : Tx :=
        { id := txDocId, type := "payment", account := accountId,
          amount := amount, timestamp := timestamp }
      let acct' : Account :=
        { acct with activity :=
          { acct.activity with
            totalPaid := acct.activity.totalPaid + amount,
            lastPaymentTimestamp := timestamp } }
      .ok { transactions := (txDocId, tx) :: fs.transactions,
            accounts := setA fs.accounts accountId acct' }

/-- Checkout details answered by the SumUp gateway for a checkout id, as
consumed by validatePayment (getCheckoutDetails in sumupService.ts). -/
structure Checkout where
  id : String
  status : String
  amount : Int
  currency : String
  checkout_reference : String
deriving Repr, DecidableEq

/-- HTTP response as produced by res.status(...).send(...). -/
structure HttpResponse where
  status : Nat
  body : String
deriving Repr, DecidableEq

/-- SumUp webhook notification body, expected shape
event_type CHECKOUT_STATUS_CHANGED with a checkout id. The id field is
optional because the handler checks its presence at runtime. -/
structure WebhookPayload where
  event_type : String
  id : Option String
deriving Repr, DecidableEq

/-- Result of one webhook handler execution: the HTTP response, the store
after the handler ran, and whether the handler invoked addPayment. -/
structure WebhookResult where
  response : HttpResponse
  store : Store
  invokedAddPayment : Bool
deriving Repr, DecidableEq

/-- Falsiness of an optional string value, as JavaScript truthiness tests it:
absent or empty means falsy. -/
def isBlank : Option String → Bool
  | none => true
  | some s => s = ""

/-- Percent-decoding of a query parameter. The handler applies
decodeURIComponent to the accountId query parameter; none of the verified
claims depends on the decoding itself, so it is modelled as the identity on
the already-decoded strings used throughout. -/
def decodeURIComponent (s : String) : String := s

/-- Final dispatch step of validatePayment (lines 92 through 107 of
validatePayment.ts): invoke addPayment and translate its outcome to an HTTP
response. Success acknowledges with 200; any thrown error, including the
duplicate-transaction error, falls into the catch block and produces a 500
response carrying the error message. A failed Firestore transaction commits
nothing, so the store is unchanged on error. -/
def webhookDispatch (fs : Store) (accountId : String) (amount : Int)
    (transactionId : String) (genId : String) (timestamp : Int) :
    HttpResponse × Store :=
  match addPayment fs accountId amount (some transactionId) genId timestamp with
  | .ok fs' => ({ status := 200, body := "" }, fs')
  | .error e =>
      ({ status := 500, body := "Internal Server Error: " ++ e }, fs)

/-- validatePayment from functions/src/validatePayment.ts (exported as the
SumUp webhook handler): reject non-POST with 405; reject a body without the
CHECKOUT_STATUS_CHANGED event type, a missing checkout id, or a missing
accountId query parameter with 400; re-fetch the checkout from the gateway (a
gateway failure is caught and answered 500); acknowledge a non-PAID status
with 200 and no write; answer 404 when the account document is absent;
acknowledge an already-recorded transaction with 200 and no write; otherwise
record the payment through webhookDispatch. The gateway is passed as a
function from checkout id to its fetched details. -/
def validatePayment (gateway : String → Except String Checkout) (fs : Store)
    (method : String) (body : Option WebhookPayload)
    (queryAccountId : Option String) (genId : String) (timestamp : Int) :
    WebhookResult :=
  if method ≠ "POST" then
    { response := { status := 405, body := "Method Not Allowed" },
      store := fs, invokedAddPayment := false }
  else
    match body with
    | none =>
        { response := { status := 400,
                        body := "Bad Request - Invalid webhook payload" },
          store := fs, invokedAddPayment := false }
    | some payload =>
      if payload.event_type ≠ "CHECKOUT_STATUS_CHANGED" then
        { response := { status := 400,
                        body := "Bad Request - Invalid webhook payload" },
          store := fs, invokedAddPayment := false }
      else if isBlank payload.id then
        { response := { status := 400,
                        body := "Bad Request - Missing checkout ID" },
          store := fs, invokedAddPayment := false }
      else if isBlank queryAccountId then
        { response := { status := 400,
                        body := "Bad Request - Missing account ID" },
          store := fs, invokedAddPayment := false }
      else
        let checkoutId := payload.id.getD ""
        let accountId := decodeURIComponent (queryAccountId.getD "")
        match gateway checkoutId with
        | .error e =>
            { response := { status := 500,
                            body := "Internal Server Error: " ++ e },
              store := fs, invokedAddPayment := false }
        | .ok checkout =>
          if checkout.status ≠ "PAID" then
            { response := { status := 200, body := "" },
              store := fs, invokedAddPayment := false }
          else
            let transactionId := checkout.checkout_reference
            match lookupA fs.accounts accountId with
            | none =>
                { response := { status := 404, body := "Account not found" },
                  store := fs, invokedAddPayment := false }
            | some _ =>
              match lookupA fs.transactions transactionId with
              | some _ =>
                  { response := { status := 200, body := "" },
                    store := fs, invokedAddPayment := false }
              | none =>
                  let r := webhookDispatch fs accountId checkout.amount
                    transactionId genId timestamp
                  { response := r.1, store := r.2, invokedAddPayment := true }

/-- Percent-encoding of a query parameter value. The endpoint applies
encodeURIComponent to the account id when building the return URL; no
verified claim depends on the encoding itself, so it is modelled as the
identity on the plain account ids used throughout. -/
def encodeURIComponent (s : String) : String := s

/-- Leading-substring test of the source (the JavaScript startsWith used on
the Authorization header), computed on the character lists so that concrete
instances evaluate. -/
def strStartsWith (s p : String) : Bool := s.toList.take p.length = p.toList

/-- Trailing-substring test of the source (the JavaScript endsWith used on
email domains), computed on the character lists. -/
def strEndsWith (s p : String) : Bool :=
  s.toList.drop (s.length - p.length) = p.toList

/-- Lower-casing of the source (the JavaScript toLowerCase), computed on the
character lists. -/
def strToLower (s : String) : String := ⟨s.toList.map Char.toLower⟩

/-- Request passed to createCheckout of sumupService.ts by the balance
lookup endpoint. -/
structure CheckoutRequest where
  amount : Int
  currency : String
  checkoutReference : String
  description : String
  merchantCode : String
  returnUrl : String
deriving Repr, DecidableEq

/-- Checkout created by the SumUp gateway: its id and the hosted payment
page URL. -/
structure CheckoutResult where
  checkoutId : String
  checkoutUrl : String
deriving Repr, DecidableEq

/-- Process environment read by getPaymentLinkForSlackUser. -/
structure PLEnv where
  chaquipApiKey : Option String
  sumupMerchantCode : Option String
  sumupWebhookUrl : Option String
  gcloudProject : Option String
deriving Repr, DecidableEq

/-- JSON body answered by the balance lookup endpoint. -/
inductive PLBody where
  | balanceOnly (balance : Int)
  | balanceLink (balance : Int) (paymentLink : String)
  | errBody (error : String)
  | errDetails (error : String) (details : String)
deriving Repr, DecidableEq

/-- Result of one balance lookup execution: HTTP status, JSON body, and the
checkout request sent to the gateway, when one was sent. -/
structure PLResult where
  status : Nat
  body : PLBody
  checkoutReq : Option CheckoutRequest
deriving Repr, DecidableEq

/-- Default webhook URL built by the endpoint when SUMUP_WEBHOOK_URL is
unset, from the GCLOUD_PROJECT value. -/
def defaultFunctionUrl (gcloudProject : Option String) : String :=
  "https://us-central1-" ++ gcloudProject.getD "unknown-project" ++
    ".cloudfunctions.net/handleSumUpWebhook"

/-- getPaymentLinkForSlackUser from
functions/src/getPaymentLinkForSlackUser.ts: reject non-GET with 405;
answer 500 when CHAQUIP_API_KEY is unconfigured; answer 401 when the
Authorization header lacks the Bearer prefix or the token mismatches; answer
400 on a missing slackUserId; resolve the account whose slack.id matches (404
when none); compute balance as totalPaid minus totalPurchased; answer the
balance alone when it is non-negative; otherwise create a SumUp checkout for
the absolute value of the balance with the account id embedded in the return
URL and answer balance plus payment link. The gateway createCheckout and the
generated UUID are passed as parameters. -/
def getPaymentLinkForSlackUser
    (createCheckout : CheckoutRequest → Except String CheckoutResult)
    (env : PLEnv) (fs : Store) (method : String) (authHeader : Option String)
    (slackUserId : Option String) (uuid : String) : PLResult :=
  if method ≠ "GET" then
    { status := 405, body := .errBody "Method not allowed", checkoutReq := none }
  else
    match env.chaquipApiKey with
    | none =>
        { status := 500, body := .errBody "Internal server error",
          checkoutReq := none }
    | some apiKey =>
      match authHeader with
      | none =>
          { status := 401, body := .errBody "Unauthorized", checkoutReq := none }
      | some header =>
        if ¬ strStartsWith header "Bearer " then
          { status := 401, body := .errBody "Unauthorized", checkoutReq := none }
        else if header.drop 7 ≠ apiKey then
          { status := 401, body := .errBody "Unauthorized", checkoutReq := none }
        else if isBlank slackUserId then
          { status := 400,
            body := .errBody "Missing or invalid slackUserId parameter",
            checkoutReq := none }
        else
          let su := slackUserId.getD ""
          match fs.accounts.find? (fun kv => kv.2.slack.id = su) with
          | none =>
              { status := 404,
                body := .errBody "No account found with that Slack user ID",
                checkoutReq := none }
          | some (accountId, account) =>
            let balance :=
              account.activity.totalPaid - account.activity.totalPurchased
            if 0 ≤ balance then
              { status := 200, body := .balanceOnly balance,
                checkoutReq := none }
            else
              match env.sumupMerchantCode with
              | none =>
                  { status := 500, body := .errBody "Internal server error",
                    checkoutReq := none }
              | some merchantCode =>
                let functionUrl :=
                  env.sumupWebhookUrl.getD (defaultFunctionUrl env.gcloudProject)
                let returnUrl :=
                  functionUrl ++ "?accountId=" ++ encodeURIComponent accountId
                let req : CheckoutRequest :=
                  { amount := |balance|, currency := "EUR",
                    checkoutReference := uuid,
                    description :=
                      "Chaquip payment for " ++ account.slack.name,
                    merchantCode := merchantCode, returnUrl := returnUrl }
                match createCheckout req with
                | .ok checkout =>
                    { status := 200,
                      body := .balanceLink balance checkout.checkoutUrl,
                      checkoutReq := some req }
                | .error e =>
                    { status := 500,
                      body := .errDetails "Internal server error" e,
                      checkoutReq := some req }

/-- Slack member profile, as fetched from the Slack users.list API. -/
structure SlackProfile where
  email : Option String
  image_192 : Option String
deriving Repr, DecidableEq

/-- Slack workspace member, as consumed by the roster reconciler. -/
structure SlackMember where
  id : String
  name : String
  is_bot : Bool
  deleted : Bool
  profile : SlackProfile
deriving Repr, DecidableEq

/-- Modelled from the spec: employee classification of the roster reconciler
in functions/src/shared/updateUsersLogic.ts, whose implementation file is
absent from the sources (only its unit test is present). A member is an
employee iff the email domain matches the Akeneo organization domains,
case-insensitively. -/
def isEmployeeEmail : Option String → Bool
  | none => false
  | some e =>
      strEndsWith (strToLower e) "@akeneo.com" ||
        strEndsWith (strToLower e) "@getakeneo.com"

/-- One entry of the delete set computed by the reconciler: the account to
remove together with the recorded reason. -/
structure DeleteEntry where
  account : Account
  reason : String
deriving Repr, DecidableEq

/-- Actions computed by one reconciliation run. -/
structure SyncActions where
  created : List SlackMember
  updated : List (Account × SlackMember)
  deleted : List DeleteEntry
deriving Repr, DecidableEq

/-- True iff the reconciler treats this account as having no live directory
member: no non-bot member with the matching Slack id, or that member is
marked deleted in Slack. -/
def memberGone (humans : List SlackMember) (a : Account) : Bool :=
  match humans.find? (fun m => m.id = a.slack.id) with
  | none => true
  | some m => m.deleted

/-- Modelled from the spec: the action computation of executeUpdateUsers in
functions/src/shared/updateUsersLogic.ts, whose implementation file is
absent from the sources; faithful to spec section 4.2 and to the unit test
updateUsersLogic.test.ts. Bots are filtered out first. Create: live employee
member with no matching account. Update: matching live member whose employee
flag or picture differs. Delete: account whose member is absent from the
directory or marked deleted there AND whose totalPurchased equals zero, with
a reason string distinguishing the two cases. -/
def determineSyncActions (members : List SlackMember)
    (accounts : List Account) : SyncActions :=
  let humans := members.filter (fun m => ¬ m.is_bot)
  let active := humans.filter (fun m => ¬ m.deleted)
  let created := active.filter (fun m =>
    isEmployeeEmail m.profile.email &&
      (accounts.find? (fun a => a.slack.id = m.id)).isNone)
  let updated := accounts.filterMap (fun a =>
    match active.find? (fun m => m.id = a.slack.id) with
    | none => none
    | some m =>
      if isEmployeeEmail m.profile.email ≠ a.isEmployee ∨
          m.profile.image_192.getD "" ≠ a.slack.pictureUrl then
        some (a, m)
      else none)
  let deleted := accounts.filterMap (fun a =>
    if a.activity.totalPurchased = 0 ∧ memberGone humans a then
      some { account := a,
             reason :=
               match humans.find? (fun m => m.id = a.slack.id) with
               | none => "Not in Slack workspace, no purchases"
               | some _ => "Deleted from Slack, no purchases" }
    else none)
  { created := created, updated := updated, deleted := deleted }

/-- Sample account used by the concrete witnesses: no purchases, 10 paid. -/
def acctA : Account :=
  { slack := { id := "U1", name := "Ann", username := "ann", pictureUrl := "p" },
    activity := { totalPurchased := 0, totalPaid := 10,
                  lastPurchaseTimestamp := 0, lastPaymentTimestamp := 0 },
    isEmployee := true }

/-- Sample store with one account and an empty transactions collection. -/
def storeA : Store := { transactions := [], accounts := [("acc1", acctA)] }

/-- Sample store in which transaction tx1 is already recorded. -/
def storeDup : Store :=
  { transactions :=
      [("tx1", { id := "tx1", type := "payment", account := "acc1",
                 amount := 50, timestamp := 0 })],
    accounts := [("acc1", acctA)] }

/-- Projection used by concrete ledger statements: the totalPaid value of the
given account after a successful addPayment, none when the call failed. -/
def paidOf (r : Except String Store) (k : String) : Option Int :=
  match r with
  | .ok s => (lookupA s.accounts k).map (fun a => a.activity.totalPaid)
  | .error _ => none

/-- Account equal to acctA after a successful payment of 50 at timestamp 3. -/
def acctA50 : Account :=
  { slack := { id := "U1", name := "Ann", username := "ann", pictureUrl := "p" },
    activity := { totalPurchased := 0, totalPaid := 60,
                  lastPurchaseTimestamp := 0, lastPaymentTimestamp := 3 },
    isEmployee := true }

/-- Store equal to storeA after a successful payment of 50 at timestamp 3
under transaction id tx1. -/
def storeA50 : Store :=
  { transactions :=
      [("tx1", { id := "tx1", type := "payment", account := "acc1",
                 amount := 50, timestamp := 3 })],
    accounts := [("acc1", acctA50)] }

/-- Sample checkout in the PAID state, referencing transaction tx1. -/
def checkoutPaid : Checkout :=
  { id := "c1", status := "PAID", amount := 50, currency := "EUR",
    checkout_reference := "tx1" }

/-- Sample checkout still pending, referencing transaction tx1. -/
def checkoutPending : Checkout :=
  { id := "c1", status := "PENDING", amount := 50, currency := "EUR",
    checkout_reference := "tx1" }

/-- Gateway answering every checkout lookup with the PAID sample. -/
def gwPaid : String → Except String Checkout := fun _ => .ok checkoutPaid

/-- Gateway answering every checkout lookup with the pending sample. -/
def gwPending : String → Except String Checkout := fun _ => .ok checkoutPending

/-- Structurally valid webhook notification for checkout c1. -/
def payloadOk : WebhookPayload :=
  { event_type := "CHECKOUT_STATUS_CHANGED", id := some "c1" }

/-- Checkout request built by the balance lookup endpoint for an account in
debt: the amount is the absolute value of the balance and the return URL
carries the account id as a query parameter. -/
def plCheckoutRequest (env : PLEnv) (acct : Account)
    (accountId merchantCode uuid : String) : CheckoutRequest :=
  { amount := |acct.activity.totalPaid - acct.activity.totalPurchased|,
    currency := "EUR", checkoutReference := uuid,
    description := "Chaquip payment for " ++ acct.slack.name,
    merchantCode := merchantCode,
    returnUrl := env.sumupWebhookUrl.getD (defaultFunctionUrl env.gcloudProject)
      ++ "?accountId=" ++ encodeURIComponent accountId }

/-- Scenario E account that owes money: purchased 100, paid 40. -/
def acctOwes : Account :=
  { slack := { id := "U2", name := "Bob", username := "bob", pictureUrl := "p" },
    activity := { totalPurchased := 100, totalPaid := 40,
                  lastPurchaseTimestamp := 0, lastPaymentTimestamp := 0 },
    isEmployee := true }

/-- Scenario E account in credit: purchased 40, paid 100. -/
def acctCredit : Account :=
  { slack := { id := "U3", name := "Cal", username := "cal", pictureUrl := "p" },
    activity := { totalPurchased := 40, totalPaid := 100,
                  lastPurchaseTimestamp := 0, lastPaymentTimestamp := 0 },
    isEmployee := true }

/-- Store holding the two Scenario E accounts. -/
def storeE : Store :=
  { transactions := [],
    accounts := [("accB", acctOwes), ("accC", acctCredit)] }

/-- Environment with the API key, merchant code and webhook URL configured. -/
def envE : PLEnv :=
  { chaquipApiKey := some "key", sumupMerchantCode := some "M1",
    sumupWebhookUrl := some "https://wh", gcloudProject := none }

/-- Environment with CHAQUIP_API_KEY unconfigured. -/
def envNoKey : PLEnv :=
  { chaquipApiKey := none, sumupMerchantCode := some "M1",
    sumupWebhookUrl := some "https://wh", gcloudProject := none }

/-- Checkout-creation gateway that always succeeds with a fixed session. -/
def gwCreateOk : CheckoutRequest → Except String CheckoutResult :=
  fun _ => .ok { checkoutId := "ck1", checkoutUrl := "https://pay" }

theorem lookupA_setA_self {β : Type} (l : List (String × β)) (k : String)
    (v : β) (h : (lookupA l k).isSome) : lookupA (setA l k v) k = some v := by
  induction l with
  | nil => simp [lookupA] at h
  | cons hd tl ih =>
    obtain ⟨k0, v0⟩ := hd
    by_cases hk : k0 = k
    · subst hk
      simp [setA, lookupA]
    · have hne : ¬ k = k0 := fun he => hk he.symm
      simp only [lookupA, if_neg hne] at h
      simp [setA, lookupA, hk, hne, ih h]

theorem lookupA_setA_ne {β : Type} (l : List (String × β)) (k k' : String)
    (v : β) (h : k' ≠ k) : lookupA (setA l k v) k' = lookupA l k' := by
  induction l with
  | nil => simp [setA, lookupA]
  | cons hd tl ih =>
    obtain ⟨k0, v0⟩ := hd
    by_cases hk : k0 = k
    · subst hk
      simp [setA, lookupA, h, ih]
    · simp [setA, lookupA, hk, ih]

/-- C1: for every accountId, amount and transactionId, when a transaction
document keyed by transactionId already exists addPayment aborts with the
duplicate error and performs no writes (an error result commits nothing);
when none exists and the account document is present (the precondition the
spec states for recordPayment), addPayment returns a store holding exactly
one new transaction record keyed by transactionId, atomically with the
increment of activity.totalPaid by amount and the update of
activity.lastPaymentTimestamp, every other document unchanged. -/
theorem addPayment_at_most_once (fs : Store) (accountId txId genId : String)
    (amount ts : Int) :
    ((lookupA fs.transactions txId).isSome →
      addPayment fs accountId amount (some txId) genId ts =
        .error "Transaction already exists") ∧
    (lookupA fs.transactions txId = none →
      ∀ acct, lookupA fs.accounts accountId = some acct →
      ∃ fs', addPayment fs accountId amount (some txId) genId ts = .ok fs' ∧
        lookupA fs'.transactions txId =
          some { id := txId, type := "payment", account := accountId,
                 amount := amount, timestamp := ts } ∧
        (∀ k, k ≠ txId →
          lookupA fs'.transactions k = lookupA fs.transactions k) ∧
        ∃ acct', lookupA fs'.accounts accountId = some acct' ∧
          acct'.activity.totalPaid = acct.activity.totalPaid + amount ∧
          acct'.activity.lastPaymentTimestamp = ts ∧
          acct'.activity.totalPurchased = acct.activity.totalPurchased ∧
          (∀ k, k ≠ accountId →
            lookupA fs'.accounts k = lookupA fs.accounts k)) := by
  constructor
  · intro h
    obtain ⟨tx, htx⟩ := Option.isSome_iff_exists.mp h
    simp [addPayment, htx]
  · intro h acct ha
    have hstep : addPayment fs accountId amount (some txId) genId ts =
        .ok { transactions :=
                (txId, { id := txId, type := "payment", account := accountId,
                         amount := amount, timestamp := ts })
                  :: fs.transactions,
              accounts := setA fs.accounts accountId
                { acct with activity :=
                  { acct.activity with
                    totalPaid := acct.activity.totalPaid + amount,
                    lastPaymentTimestamp := ts } } } := by
      simp [addPayment, h, ha]
    refine ⟨_, hstep, by simp [lookupA], fun k hk => by simp [lookupA, hk], ?_⟩
    refine ⟨_, lookupA_setA_self _ _ _ (by simp [ha]), rfl, rfl, rfl, ?_⟩
    exact fun k hk => lookupA_setA_ne _ _ _ _ hk

/-- Witness for C1 at concrete inputs: the duplicate branch on a store
already holding tx1, and the fresh branch on a store without it. -/
theorem addPayment_at_most_once_witness :
    addPayment storeDup "acc1" 50 (some "tx1") "g" 3 =
      .error "Transaction already exists" ∧
    ∃ fs', addPayment storeA "acc1" 50 (some "tx1") "g" 3 = .ok fs' ∧
      lookupA fs'.transactions "tx1" =
        some { id := "tx1", type := "payment", account := "acc1",
               amount := 50, timestamp := 3 } := by
  constructor
  · exact (addPayment_at_most_once storeDup "acc1" "tx1" "g" 50 3).1
      (by decide)
  · obtain ⟨fs', h1, h2, -, -⟩ :=
      (addPayment_at_most_once storeA "acc1" "tx1" "g" 50 3).2 rfl acctA
        (by decide)
    exact ⟨fs', h1, h2⟩

/-- C2: two concurrent recordPayment invocations with the identical
transactionId, modelled as the two database-serialized executions of the
Firestore transaction (the concurrency contract of spec section 5: the two
check-then-write sequences for one key are strictly serialized). The
timestamps and generated ids of the two calls are arbitrary, so the statement
covers both serialization orders: the call serialized first succeeds, the
second settles with the duplicate-transaction failure, and totalPaid of the
account reflects amount exactly once afterwards. -/
theorem addPayment_concurrent_duplicate (fs : Store)
    (accountId txId g1 g2 : String) (amount t1 t2 : Int) (acct : Account)
    (hfresh : lookupA fs.transactions txId = none)
    (hacct : lookupA fs.accounts accountId = some acct) :
    ∃ fs', addPayment fs accountId amount (some txId) g1 t1 = .ok fs' ∧
      addPayment fs' accountId amount (some txId) g2 t2 =
        .error "Transaction already exists" ∧
      ∃ acct', lookupA fs'.accounts accountId = some acct' ∧
        acct'.activity.totalPaid = acct.activity.totalPaid + amount := by
  have hstep : addPayment fs accountId amount (some txId) g1 t1 =
      .ok { transactions :=
              (txId, { id := txId, type := "payment", account := accountId,
                       amount := amount, timestamp := t1 })
                :: fs.transactions,
            accounts := setA fs.accounts accountId
              { acct with activity :=
                { acct.activity with
                  totalPaid := acct.activity.totalPaid + amount,
                  lastPaymentTimestamp := t1 } } } := by
    simp [addPayment, hfresh, hacct]
  refine ⟨_, hstep, ?_, ?_⟩
  · simp [addPayment, lookupA]
  · exact ⟨_, lookupA_setA_self _ _ _ (by simp [hacct]), rfl⟩

/-- Witness for C2 at concrete inputs: on the sample store, the first
serialized call succeeds, the second fails with the duplicate error, and
totalPaid went from 10 to 60 (incremented by 50 exactly once). -/
theorem addPayment_concurrent_duplicate_witness :
    ∃ fs', addPayment storeA "acc1" 50 (some "tx1") "g1" 1 = .ok fs' ∧
      addPayment fs' "acc1" 50 (some "tx1") "g2" 2 =
        .error "Transaction already exists" ∧
      ∃ acct', lookupA fs'.accounts "acc1" = some acct' ∧
        acct'.activity.totalPaid = 60 := by
  obtain ⟨fs', h1, h2, acct', h3, h4⟩ :=
    addPayment_concurrent_duplicate storeA "acc1" "tx1" "g1" "g2" 50 1 2 acctA
      rfl (by decide)
  exact ⟨fs', h1, h2, acct', h3, by rw [h4]; decide⟩

/-- Counterexample to C8 as stated: addPayment accepts a negative amount
argument and then strictly decreases activity.totalPaid, here from 10 down
to 5, so not every accepted invocation is a non-negative increment. -/
theorem addPayment_negative_amount_decreases :
    paidOf (addPayment storeA "acc1" (-5) (some "tx1") "g" 7) "acc1" =
      some 5 ∧
    paidOf (.ok storeA) "acc1" = some 10 ∧ (5 : Int) < 10 :=
  ⟨by decide, by decide, by decide⟩

/-- C8 amended: addPayment never touches totalPurchased of any account, and
whenever the amount argument is non-negative a successful addPayment never
decreases totalPaid and preserves non-negativity of both cumulative totals;
the service itself does not validate the sign of the amount, so the
non-negative increment is conditional on its callers passing non-negative
amounts. -/
theorem addPayment_monotone_of_nonneg (fs fs' : Store)
    (accountId txId genId k : String) (amount ts : Int) (a a' : Account)
    (hamt : 0 ≤ amount)
    (hstep : addPayment fs accountId amount (some txId) genId ts = .ok fs')
    (hk : lookupA fs.accounts k = some a)
    (hk' : lookupA fs'.accounts k = some a') :
    a.activity.totalPaid ≤ a'.activity.totalPaid ∧
    a'.activity.totalPurchased = a.activity.totalPurchased ∧
    (0 ≤ a.activity.totalPaid → 0 ≤ a'.activity.totalPaid) ∧
    (0 ≤ a.activity.totalPurchased → 0 ≤ a'.activity.totalPurchased) := by
  cases htx : lookupA fs.transactions txId with
  | some tx => simp [addPayment, htx] at hstep
  | none =>
    cases hacct : lookupA fs.accounts accountId with
    | none => simp [addPayment, htx, hacct] at hstep
    | some acct =>
      simp only [addPayment, htx, hacct, Option.getD_some] at hstep
      have hfs' := (Except.ok.injEq _ _).mp hstep
      subst hfs'
      by_cases hka : k = accountId
      · subst hka
        rw [hacct] at hk
        have ha : acct = a := by injection hk
        subst ha
        have h2 := lookupA_setA_self fs.accounts k
          { acct with activity :=
            { acct.activity with
              totalPaid := acct.activity.totalPaid + amount,
              lastPaymentTimestamp := ts } } (by simp [hacct])
        rw [h2] at hk'
        have ha' := (Option.some.injEq _ _).mp hk'
        subst ha'
        refine ⟨?_, rfl, ?_, by intro h0; exact h0⟩
        · simp only
          linarith
        · intro h0
          simp only
          linarith
      · have h2 := lookupA_setA_ne fs.accounts accountId k
          { acct with activity :=
            { acct.activity with
              totalPaid := acct.activity.totalPaid + amount,
              lastPaymentTimestamp := ts } } hka
        rw [h2, hk] at hk'
        have ha' := (Option.some.injEq _ _).mp hk'
        subst ha'
        exact ⟨le_refl _, rfl, fun h0 => h0, fun h0 => h0⟩

/-- Witness for the amended C8 at concrete inputs: a payment of 50 on the
sample store raises totalPaid from 10 to 60 and leaves totalPurchased at 0. -/
theorem addPayment_monotone_of_nonneg_witness :
    (0 : Int) ≤ 50 ∧
    addPayment storeA "acc1" 50 (some "tx1") "g" 3 = .ok storeA50 ∧
    acctA.activity.totalPaid ≤ acctA50.activity.totalPaid ∧
    acctA50.activity.totalPurchased = acctA.activity.totalPurchased := by
  have hstep : addPayment storeA "acc1" 50 (some "tx1") "g" 3 =
      .ok storeA50 := by rfl
  obtain ⟨h1, h2, -, -⟩ :=
    addPayment_monotone_of_nonneg storeA storeA50 "acc1" "tx1" "g" "acc1" 50 3
      acctA acctA50 (by decide) hstep (by decide) (by decide)
  exact ⟨by decide, hstep, h1, h2⟩

/-- Counterexample to C4 as stated: when the ledger itself signals the
duplicate-transaction condition (here the transaction document exists at
dispatch time, as happens when a concurrent invocation records it between
the handler pre-check and the ledger transaction), the handler dispatch
answers 500 with the duplicate message instead of a 200 acknowledgement. -/
theorem webhookDispatch_duplicate_not_200 :
    addPayment storeDup "acc1" 50 (some "tx1") "g" 3 =
      .error "Transaction already exists" ∧
    (webhookDispatch storeDup "acc1" 50 "tx1" "g" 3).1 =
      { status := 500,
        body := "Internal Server Error: Transaction already exists" } ∧
    (500 : Nat) ≠ 200 :=
  ⟨rfl, rfl, by decide⟩

/-- C4 amended: the handler acknowledges an already-recorded checkout with
200 only through its pre-check, before invoking the ledger; when the ledger
itself signals the DuplicateTransaction condition during dispatch of a
verified-paid notification, the handler treats it like any other ledger
failure and answers 500 with the duplicate message, leaving the store
unchanged. -/
theorem webhookDispatch_duplicate_500 (fs : Store)
    (accountId txId genId : String) (amount ts : Int) (tx : Tx)
    (hdup : lookupA fs.transactions txId = some tx) :
    webhookDispatch fs accountId amount txId genId ts =
      ({ status := 500,
         body := "Internal Server Error: Transaction already exists" }, fs) := by
  simp [webhookDispatch, addPayment, hdup]

/-- Witness for the amended C4 at concrete inputs. -/
theorem webhookDispatch_duplicate_500_witness :
    lookupA storeDup.transactions "tx1" =
      some { id := "tx1", type := "payment", account := "acc1",
             amount := 50, timestamp := 0 } ∧
    webhookDispatch storeDup "acc1" 50 "tx1" "g" 3 =
      ({ status := 500,
         body := "Internal Server Error: Transaction already exists" },
       storeDup) :=
  ⟨by decide,
   webhookDispatch_duplicate_500 storeDup "acc1" "tx1" "g" 50 3
     { id := "tx1", type := "payment", account := "acc1",
       amount := 50, timestamp := 0 } (by decide)⟩

/-- C3: replaying a structurally valid payment webhook notification whose
re-fetched checkout is PAID and whose checkout_reference already names an
existing transaction document leaves the whole store (in particular the
account totalPaid) unchanged, answers 200, and never invokes addPayment; the
account document is assumed present, as it was when the payment was first
recorded. -/
theorem validatePayment_replay_idempotent
    (gateway : String → Except String Checkout) (fs : Store)
    (payload : WebhookPayload) (qAccountId genId : String) (ts : Int)
    (checkout : Checkout) (acct : Account) (tx : Tx)
    (hev : payload.event_type = "CHECKOUT_STATUS_CHANGED")
    (hid : isBlank payload.id = false)
    (hq : isBlank (some qAccountId) = false)
    (hgw : gateway (payload.id.getD "") = .ok checkout)
    (hpaid : checkout.status = "PAID")
    (hacct : lookupA fs.accounts (decodeURIComponent qAccountId) = some acct)
    (htx : lookupA fs.transactions checkout.checkout_reference = some tx) :
    validatePayment gateway fs "POST" (some payload) (some qAccountId)
        genId ts =
      { response := { status := 200, body := "" }, store := fs,
        invokedAddPayment := false } := by
  simp [validatePayment, hev, hid, hq, hgw, hpaid, hacct, htx]

/-- Witness for C3 at concrete inputs: replaying the notification for the
already-recorded checkout c1 against the sample store answers 200 and leaves
the store untouched without invoking addPayment. -/
theorem validatePayment_replay_idempotent_witness :
    checkoutPaid.status = "PAID" ∧
    lookupA storeDup.transactions checkoutPaid.checkout_reference =
      some { id := "tx1", type := "payment", account := "acc1",
             amount := 50, timestamp := 0 } ∧
    validatePayment gwPaid storeDup "POST" (some payloadOk) (some "acc1")
        "g" 9 =
      { response := { status := 200, body := "" }, store := storeDup,
        invokedAddPayment := false } :=
  ⟨rfl, by decide,
   validatePayment_replay_idempotent gwPaid storeDup payloadOk "acc1" "g" 9
     checkoutPaid acctA
     { id := "tx1", type := "payment", account := "acc1",
       amount := 50, timestamp := 0 }
     rfl rfl rfl rfl rfl (by decide) (by decide)⟩

/-- C5: the handler never records a payment from the notification body
alone: in every execution in which addPayment was invoked, the handler had
re-fetched the checkout from the gateway using the checkout id of the
notification and the fetched status was PAID; and whenever the fetched
status is anything other than PAID (the notification being structurally
valid), the handler acknowledges 200 and performs no recording. -/
theorem validatePayment_only_after_paid
    (gateway : String → Except String Checkout) (fs : Store) (method : String)
    (body : Option WebhookPayload) (q : Option String) (genId : String)
    (ts : Int) :
    ((validatePayment gateway fs method body q genId ts).invokedAddPayment =
        true →
      ∃ p checkout, body = some p ∧
        gateway (p.id.getD "") = .ok checkout ∧ checkout.status = "PAID") ∧
    (∀ p checkout, method = "POST" → body = some p →
      p.event_type = "CHECKOUT_STATUS_CHANGED" → isBlank p.id = false →
      isBlank q = false → gateway (p.id.getD "") = .ok checkout →
      checkout.status ≠ "PAID" →
      validatePayment gateway fs method body q genId ts =
        { response := { status := 200, body := "" }, store := fs,
          invokedAddPayment := false }) := by
  constructor
  · intro h
    simp only [validatePayment] at h
    split at h
    · exact absurd h (by simp)
    split at h
    · exact absurd h (by simp)
    rename_i p
    split at h
    · exact absurd h (by simp)
    split at h
    · exact absurd h (by simp)
    split at h
    · exact absurd h (by simp)
    split at h
    · exact absurd h (by simp)
    rename_i checkout hgw
    split at h
    · exact absurd h (by simp)
    rename_i hpaid
    split at h
    · exact absurd h (by simp)
    split at h
    · exact absurd h (by simp)
    exact ⟨p, checkout, rfl, hgw, not_not.mp hpaid⟩
  · intro p checkout hm hb hev hid hq hgw hpaid
    subst hm hb
    simp [validatePayment, hev, hid, hq, hgw, hpaid]

/-- Witness for C5 at concrete inputs: a structurally valid notification
whose re-fetched checkout is still pending is acknowledged with 200 and
nothing is recorded. -/
theorem validatePayment_only_after_paid_witness :
    checkoutPending.status ≠ "PAID" ∧
    validatePayment gwPending storeA "POST" (some payloadOk) (some "acc1")
        "g" 9 =
      { response := { status := 200, body := "" }, store := storeA,
        invokedAddPayment := false } :=
  ⟨by decide,
   (validatePayment_only_after_paid gwPending storeA "POST" (some payloadOk)
       (some "acc1") "g" 9).2 payloadOk checkoutPending rfl rfl rfl rfl rfl
     rfl (by decide)⟩

/-- Counterexample to C9 as stated: a structurally valid notification whose
verified checkout is PAID but whose accountId names no stored account is
answered 404, not the claimed 200 acknowledgement. -/
theorem validatePayment_unknown_account_404 :
    (validatePayment gwPaid storeA "POST" (some payloadOk) (some "ghost")
        "g" 9).response.status = 404 ∧ (404 : Nat) ≠ 200 :=
  ⟨rfl, by decide⟩

/-- C9 amended: once the notification is structurally valid, the handler
answers 200 for a non-PAID verified status and for an already-recorded
payment, but an unknown account is answered 404 (and processing failures
500); only malformed requests return 400. -/
theorem validatePayment_valid_notification_statuses
    (gateway : String → Except String Checkout) (fs : Store)
    (p : WebhookPayload) (q genId : String) (ts : Int) (checkout : Checkout)
    (hev : p.event_type = "CHECKOUT_STATUS_CHANGED")
    (hid : isBlank p.id = false)
    (hq : isBlank (some q) = false)
    (hgw : gateway (p.id.getD "") = .ok checkout) :
    (checkout.status ≠ "PAID" →
      (validatePayment gateway fs "POST" (some p) (some q) genId ts
        ).response.status = 200) ∧
    (checkout.status = "PAID" →
      lookupA fs.accounts (decodeURIComponent q) = none →
      (validatePayment gateway fs "POST" (some p) (some q) genId ts
        ).response.status = 404) ∧
    (checkout.status = "PAID" → ∀ acct tx,
      lookupA fs.accounts (decodeURIComponent q) = some acct →
      lookupA fs.transactions checkout.checkout_reference = some tx →
      (validatePayment gateway fs "POST" (some p) (some q) genId ts
        ).response.status = 200) := by
  refine ⟨?_, ?_, ?_⟩
  · intro hpaid
    simp [validatePayment, hev, hid, hq, hgw, hpaid]
  · intro hpaid hacct
    simp [validatePayment, hev, hid, hq, hgw, hpaid, hacct]
  · intro hpaid acct tx hacct htx
    simp [validatePayment, hev, hid, hq, hgw, hpaid, hacct, htx]

/-- Witness for the amended C9 at concrete inputs: pending status gives 200,
unknown account gives 404, already-recorded payment gives 200. -/
theorem validatePayment_valid_notification_statuses_witness :
    (validatePayment gwPending storeA "POST" (some payloadOk) (some "acc1")
      "g" 9).response.status = 200 ∧
    (validatePayment gwPaid storeA "POST" (some payloadOk) (some "ghost")
      "g" 9).response.status = 404 ∧
    (validatePayment gwPaid storeDup "POST" (some payloadOk) (some "acc1")
      "g" 9).response.status = 200 := by
  refine ⟨?_, ?_, ?_⟩
  · exact (validatePayment_valid_notification_statuses gwPending storeA
      payloadOk "acc1" "g" 9 checkoutPending rfl rfl rfl rfl).1 (by decide)
  · exact (validatePayment_valid_notification_statuses gwPaid storeA
      payloadOk "ghost" "g" 9 checkoutPaid rfl rfl rfl rfl).2.1 rfl
      (by decide)
  · exact (validatePayment_valid_notification_statuses gwPaid storeDup
      payloadOk "acc1" "g" 9 checkoutPaid rfl rfl rfl rfl).2.2 rfl acctA
      { id := "tx1", type := "payment", account := "acc1",
        amount := 50, timestamp := 0 } (by decide) (by decide)

/-- C10: the balance lookup endpoint checks the CHAQUIP_API_KEY
configuration before examining the Authorization header: with the key
unconfigured, every GET request, whatever its Authorization header, is
answered 500 and never 401; a 401 response can only arise when the key is
configured. -/
theorem getPaymentLink_apiKey_checked_first
    (createCheckout : CheckoutRequest → Except String CheckoutResult)
    (env : PLEnv) (fs : Store) (method : String) (authHeader : Option String)
    (slackUserId : Option String) (uuid : String) :
    (method = "GET" → env.chaquipApiKey = none →
      (getPaymentLinkForSlackUser createCheckout env fs method authHeader
        slackUserId uuid).status = 500) ∧
    ((getPaymentLinkForSlackUser createCheckout env fs method authHeader
        slackUserId uuid).status = 401 →
      ∃ k, env.chaquipApiKey = some k) := by
  constructor
  · intro hm hkey
    subst hm
    simp [getPaymentLinkForSlackUser, hkey]
  · intro h
    simp only [getPaymentLinkForSlackUser] at h
    split at h
    · exact absurd h (by simp)
    split at h
    · exact absurd h (by simp)
    rename_i k hkey
    exact ⟨k, hkey⟩

/-- Witness for C10 at concrete inputs: with the key unconfigured, a GET
with a well-formed bearer header and a GET with no header at all are both
answered 500 (never 401). -/
theorem getPaymentLink_apiKey_checked_first_witness :
    envNoKey.chaquipApiKey = none ∧
    (getPaymentLinkForSlackUser gwCreateOk envNoKey storeE "GET"
      (some "Bearer key") (some "U2") "u1").status = 500 ∧
    (getPaymentLinkForSlackUser gwCreateOk envNoKey storeE "GET" none
      (some "U2") "u1").status = 500 :=
  ⟨rfl,
   (getPaymentLink_apiKey_checked_first gwCreateOk envNoKey storeE "GET"
     (some "Bearer key") (some "U2") "u1").1 rfl rfl,
   (getPaymentLink_apiKey_checked_first gwCreateOk envNoKey storeE "GET"
     none (some "U2") "u1").1 rfl rfl⟩

/-- C6: for an authenticated well-formed balance lookup resolving to a
stored account, the endpoint computes balance as totalPaid minus
totalPurchased; a non-negative balance is answered 200 carrying the balance
alone with no checkout created; a negative balance (the merchant code being
configured and the gateway succeeding) is answered 200 carrying the balance
and the created checkout link, the checkout request being for the absolute
value of the balance with the account id embedded in the return URL. -/
theorem getPaymentLink_balance_spec
    (createCheckout : CheckoutRequest → Except String CheckoutResult)
    (env : PLEnv) (fs : Store) (header su accountId apiKey uuid : String)
    (acct : Account)
    (hkey : env.chaquipApiKey = some apiKey)
    (hbearer : strStartsWith header "Bearer " = true)
    (htok : header.drop 7 = apiKey)
    (hsu : su ≠ "")
    (hfind : fs.accounts.find? (fun kv => kv.2.slack.id = su) =
      some (accountId, acct)) :
    (0 ≤ acct.activity.totalPaid - acct.activity.totalPurchased →
      getPaymentLinkForSlackUser createCheckout env fs "GET" (some header)
          (some su) uuid =
        { status := 200,
          body := .balanceOnly
            (acct.activity.totalPaid - acct.activity.totalPurchased),
          checkoutReq := none }) ∧
    (acct.activity.totalPaid - acct.activity.totalPurchased < 0 →
      ∀ merchantCode checkout, env.sumupMerchantCode = some merchantCode →
        createCheckout
            (plCheckoutRequest env acct accountId merchantCode uuid) =
          .ok checkout →
        getPaymentLinkForSlackUser createCheckout env fs "GET" (some header)
            (some su) uuid =
          { status := 200,
            body := .balanceLink
              (acct.activity.totalPaid - acct.activity.totalPurchased)
              checkout.checkoutUrl,
            checkoutReq := some (plCheckoutRequest env acct accountId
              merchantCode uuid) } ∧
        (plCheckoutRequest env acct accountId merchantCode uuid).amount =
          |acct.activity.totalPaid - acct.activity.totalPurchased| ∧
        (plCheckoutRequest env acct accountId merchantCode uuid).returnUrl =
          env.sumupWebhookUrl.getD (defaultFunctionUrl env.gcloudProject)
            ++ "?accountId=" ++ encodeURIComponent accountId) := by
  constructor
  · intro hbal
    simp [getPaymentLinkForSlackUser, hkey, hbearer, htok, isBlank, hsu,
      hfind, hbal]
  · intro hbal merchantCode checkout hmc hcc
    refine ⟨?_, rfl, rfl⟩
    simp only [plCheckoutRequest] at hcc
    simp [getPaymentLinkForSlackUser, hkey, hbearer, htok, isBlank, hsu,
      hfind, hmc, hcc, plCheckoutRequest, not_le.mpr hbal]

/-- Witness for C6 at the Scenario E inputs: the member with purchased 100
and paid 40 is answered balance -60 with a payment link created for 60; the
member with purchased 40 and paid 100 is answered balance 60 alone, with no
checkout created. -/
theorem getPaymentLink_balance_spec_witness :
    getPaymentLinkForSlackUser gwCreateOk envE storeE "GET"
        (some "Bearer key") (some "U2") "u1" =
      { status := 200, body := .balanceLink (-60) "https://pay",
        checkoutReq :=
          some (plCheckoutRequest envE acctOwes "accB" "M1" "u1") } ∧
    (plCheckoutRequest envE acctOwes "accB" "M1" "u1").amount = 60 ∧
    getPaymentLinkForSlackUser gwCreateOk envE storeE "GET"
        (some "Bearer key") (some "U3") "u1" =
      { status := 200, body := .balanceOnly 60, checkoutReq := none } := by
  refine ⟨?_, by decide, ?_⟩
  · have hb : acctOwes.activity.totalPaid - acctOwes.activity.totalPurchased
        = (-60 : Int) := by decide
    have h := ((getPaymentLink_balance_spec gwCreateOk envE storeE
        "Bearer key" "U2" "accB" "key" "u1" acctOwes rfl (by decide)
        (by decide) (by decide) (by decide)).2 (by decide) "M1"
        { checkoutId := "ck1", checkoutUrl := "https://pay" } rfl rfl).1
    rw [hb] at h
    exact h
  · have hb : acctCredit.activity.totalPaid -
        acctCredit.activity.totalPurchased = (60 : Int) := by decide
    have h := (getPaymentLink_balance_spec gwCreateOk envE storeE
        "Bearer key" "U3" "accC" "key" "u1" acctCredit rfl (by decide)
        (by decide) (by decide) (by decide)).1 (by decide)
    rw [hb] at h
    exact h

/-- C7 (modelled from the spec, the reconciler implementation being absent
from the sources): every entry of the delete set computed by a
reconciliation run has totalPurchased equal to zero and its directory member
absent or marked deleted; consequently an account with positive
totalPurchased is never included in the delete set, regardless of whether
its member is missing from or marked deleted in the directory. -/
theorem determineSyncActions_delete_guard (members : List SlackMember)
    (accounts : List Account) :
    (∀ e ∈ (determineSyncActions members accounts).deleted,
      e.account.activity.totalPurchased = 0 ∧
      memberGone (members.filter (fun m => ¬ m.is_bot)) e.account = true) ∧
    (∀ a ∈ accounts, 0 < a.activity.totalPurchased →
      ∀ e ∈ (determineSyncActions members accounts).deleted,
        e.account ≠ a) := by
  have hmain : ∀ e ∈ (determineSyncActions members accounts).deleted,
      e.account.activity.totalPurchased = 0 ∧
      memberGone (members.filter (fun m => ¬ m.is_bot)) e.account = true := by
    intro e he
    simp only [determineSyncActions, List.mem_filterMap] at he
    obtain ⟨a, -, hfa⟩ := he
    split at hfa
    · rename_i hcond
      cases hfa
      exact ⟨hcond.1, hcond.2⟩
    · exact absurd hfa (by simp)
  refine ⟨hmain, ?_⟩
  intro a ha hpos e he heq
  have h0 := (hmain e he).1
  rw [heq] at h0
  omega

/-- Witness for C7 at the Scenario C inputs: the account with purchased 100
whose member is absent from the directory is not deleted. -/
theorem determineSyncActions_delete_guard_witness :
    0 < acctOwes.activity.totalPurchased ∧
    ∀ e ∈ (determineSyncActions [] [acctOwes]).deleted,
      e.account ≠ acctOwes :=
  ⟨by decide,
   (determineSyncActions_delete_guard [] [acctOwes]).2 acctOwes
     (by decide) (by decide)⟩
